import Mathlib

/-!
Shallow embedding of `src/backend/energy_advisor_backend.py` (Astro_WattForecast).

The pipeline is: location resolution → cached forecast fetch → energy metrics →
AI suggestion (with fallback) → charts → response assembly.  External effects
(the Open-Meteo forecast request, the Gemini text generation, the matplotlib
rendering) are passed in as function parameters; everything else is translated
from the source.  Reals are modelled as rationals, dates as integer day
numbers, and the JSON responses as an explicit JSON value type.
-/

namespace WattForecast

/-! ### Constants (source lines 35-48) -/

/-- Catalog entry of `ZONE_COORDINATES`: latitude, longitude, timezone. -/
structure ZoneCoords where
  lat : ℚ
  lon : ℚ
  tz : String
deriving DecidableEq, Repr

/-- `ZONE_COORDINATES` (source lines 35-41). -/
def ZONE_COORDINATES : List (String × ZoneCoords) :=
  [("new-york", ⟨40.7128, -74.0060, "America/New_York"⟩),
   ("los-angeles", ⟨34.0522, -118.2437, "America/Los_Angeles"⟩),
   ("chicago", ⟨41.8781, -87.6298, "America/Chicago"⟩),
   ("miami", ⟨25.7617, -80.1918, "America/New_York"⟩),
   ("seattle", ⟨47.6062, -122.3321, "America/Los_Angeles"⟩)]

/-- `DEFAULT_TIMEZONE` (source line 44). -/
def DEFAULT_TIMEZONE : String := "auto"

/-- `TEMP_COMFORT = 24` (source line 47). -/
def TEMP_COMFORT : ℚ := 24

/-- `TEMP_EXTREME = 35` (source line 48). -/
def TEMP_EXTREME : ℚ := 35

/-! ### Data model: the normalized climate DataFrame -/

/-- The normalized climate series produced by `get_climate_data` after the
column rename (source lines 103-115): seven base columns, plus whatever extra
columns are later assigned to the same pandas object in place
(`df["CDD"] = ...`, `df["Solar_Potential"] = ...`).  Dates are integer day
numbers. -/
structure DataFrame where
  Date : List Int
  Avg_Temp : List ℚ
  Max_Temp : List ℚ
  Relative_Humidity : List ℚ
  Solar_Radiation : List ℚ
  Cloud_Cover : List ℚ
  Wind_Speed : List ℚ
  extra : List (String × List ℚ)
deriving DecidableEq, Repr

/-- The seven column names the fetcher produces (source lines 107-115). -/
def baseColumns : List String :=
  ["Date", "Avg_Temp", "Max_Temp", "Relative_Humidity",
   "Solar_Radiation", "Cloud_Cover", "Wind_Speed"]

/-- Column list of a frame, in pandas order: the seven renamed columns
followed by any columns assigned later. -/
def DataFrame.columns (df : DataFrame) : List String :=
  baseColumns ++ df.extra.map Prod.fst

/-- Pandas column assignment `df[name] = vals`: replaces the column when the
name already exists, otherwise appends it at the end. -/
def DataFrame.setCol (df : DataFrame) (name : String) (vals : List ℚ) : DataFrame :=
  if (df.extra.map Prod.fst).contains name then
    { df with extra := df.extra.map (fun p => if p.1 == name then (name, vals) else p) }
  else
    { df with extra := df.extra ++ [(name, vals)] }

/-! ### Location resolution (source lines 67-73) -/

/-- Python's `str.lower()` (the zone names involved are ASCII). -/
def pyLower (s : String) : String := ⟨s.data.map Char.toLower⟩

/-- The coordinate resolution at the top of `get_climate_data`
(source lines 67-73): explicit coordinates win; otherwise a case-insensitive
catalog lookup; otherwise a `ValueError`. -/
def resolveCoords (zone : String) (lat lon : Option ℚ) (tz : Option String) :
    Except String ZoneCoords :=
  match lat, lon with
  | some la, some lo => .ok ⟨la, lo, tz.getD DEFAULT_TIMEZONE⟩
  | _, _ =>
    match ZONE_COORDINATES.lookup (pyLower zone) with
    | some c => .ok c
    | none => .error ("Zone " ++ zone ++ " not available and no coordinates provided.")

/-! ### Forecast fetch parameters and date range (source lines 75-95) -/

/-- The request parameters handed to the external forecast provider
(source lines 80-95); dates as integer day numbers. -/
structure FetchParams where
  latitude : ℚ
  longitude : ℚ
  start_date : Int
  end_date : Int
  timezone : String
deriving DecidableEq, Repr

/-- The raw argument tuple of `get_climate_data`, which `lru_cache` uses as
the cache key (source lines 54-55). -/
structure CacheKey where
  zone : String
  days_ahead : Int
  lat : Option ℚ
  lon : Option ℚ
  tz : Option String
deriving DecidableEq, Repr

/-- Resolution plus date computation of `get_climate_data`
(source lines 67-95): `start_date = today`, `end_date = today + days_ahead`. -/
def get_climate_data_params (today : Int) (k : CacheKey) : Except String FetchParams :=
  match resolveCoords k.zone k.lat k.lon k.tz with
  | .error e => .error e
  | .ok c => .ok ⟨c.lat, c.lon, today, today + k.days_ahead, c.tz⟩

/-- Modelled from the spec: the external forecast provider (not part of this
repository) returns, absent provider gaps, one daily record per calendar day
from `start_date` to `end_date` inclusive. -/
def providerDates (s e : Int) : List Int :=
  (List.range (e - s + 1).toNat).map (fun i : Nat => s + (i : Int))

/-- The body of `get_climate_data` after parameter construction: the external
request plus JSON-to-DataFrame normalization, abstracted as the effect
`fetch` (source lines 98-117). -/
def get_climate_data_body (today : Int) (fetch : FetchParams → Except String DataFrame)
    (k : CacheKey) : Except String DataFrame :=
  match get_climate_data_params today k with
  | .error e => .error e
  | .ok p => fetch p

/-! ### The lru_cache wrapper (source line 54) -/

/-- The cache state of `@lru_cache(maxsize=100)`: association list in
recency order, most recently used first. -/
abbrev Cache := List (CacheKey × DataFrame)

/-- Keys currently in the cache. -/
def cacheKeys (st : Cache) : List CacheKey := st.map Prod.fst

/-- `maxsize=100` (source line 54). -/
def LRU_MAXSIZE : Nat := 100

/-- `get_climate_data` with its `lru_cache(maxsize=100)` wrapper
(source lines 54-117).  Returns the result, the new cache state and the
number of underlying fetches performed (0 on a hit, 1 on a miss).  On a hit
the entry moves to the front (most recently used); on a miss the result is
inserted and, past capacity, the least recently used entry is dropped; a
raised exception is not cached. -/
def get_climate_data (today : Int) (fetch : FetchParams → Except String DataFrame)
    (st : Cache) (k : CacheKey) : Except String DataFrame × Cache × Nat :=
  match st.find? (fun e => e.1 == k) with
  | some e => (.ok e.2, (e.1, e.2) :: st.eraseP (fun x => x.1 == k), 0)
  | none =>
    match get_climate_data_body today fetch k with
    | .error err => (.error err, st, 1)
    | .ok df =>
      let st1 := (k, df) :: st
      (.ok df, if st1.length > LRU_MAXSIZE then st1.dropLast else st1, 1)

/-- The aliasing of the cached object: `calculate_energy_metrics` mutates the
DataFrame it was handed, and on a cache hit (or right after a miss) that
object is the one stored in the cache, so the cache entry's value changes
with it. -/
def cacheWriteThrough (st : Cache) (k : CacheKey) (df : DataFrame) : Cache :=
  st.map (fun e => if e.1 == k then (e.1, df) else e)

/-! ### Metrics engine (source lines 120-153) -/

/-- The flat metrics mapping built by `calculate_energy_metrics`
(source lines 120-153).  Counts are Python `int`s; the rest are one-decimal
rounded rationals. -/
structure EnergyMetrics where
  avg_temp : ℚ
  max_temp : ℚ
  min_temp : ℚ
  cdd_total : ℚ
  extreme_heat_days : Int
  comfortable_days : Int
  avg_radiation : ℚ
  avg_solar_potential : ℚ
  optimal_solar_days : Int
  avg_humidity : ℚ
  high_demand_days : Int
deriving DecidableEq, Repr

/-- Pandas `.mean()` over a column. -/
def qmean (l : List ℚ) : ℚ := l.sum / l.length

/-- Pandas `.max()` over a nonempty column (an empty series is a
precondition violation upstream). -/
def listMax : List ℚ → ℚ
  | [] => 0
  | h :: t => t.foldl max h

/-- Pandas `.min()` over a nonempty column. -/
def listMin : List ℚ → ℚ
  | [] => 0
  | h :: t => t.foldl min h

/-- Python `round(x, 1)`: one-decimal rounding. -/
def round1 (q : ℚ) : ℚ := (round (10 * q) : ℤ) / 10

/-- `calculate_energy_metrics` (source lines 120-153).  Returns the metrics
and the DataFrame as left behind: the function assigns the two derived
columns `CDD` and `Solar_Potential` to the frame it was handed (source
lines 132 and 140), mutating it in place. -/
def calculate_energy_metrics (df : DataFrame) : EnergyMetrics × DataFrame :=
  let avg_temp := round1 (qmean df.Avg_Temp)
  let max_temp := round1 (listMax df.Max_Temp)
  let min_temp := round1 (listMin df.Avg_Temp)
  let cddCol := df.Avg_Temp.map (fun t => max (t - TEMP_COMFORT) 0)
  let df1 := df.setCol "CDD" cddCol
  let cdd_total := round1 cddCol.sum
  let extreme_heat_days : Int := (df.Max_Temp.countP (fun t => decide (TEMP_EXTREME < t)) : Nat)
  let comfortable_days : Int := (df.Max_Temp.countP (fun t => decide (t ≤ TEMP_COMFORT)) : Nat)
  let spCol := (df.Solar_Radiation.zip df.Cloud_Cover).map (fun p => p.1 * (1 - p.2 / 100))
  let df2 := df1.setCol "Solar_Potential" spCol
  let avg_radiation := round1 (qmean df.Solar_Radiation)
  let avg_solar_potential := round1 (qmean spCol)
  let optimal_solar_days : Int := (df.Cloud_Cover.countP (fun c => decide (c < 40)) : Nat)
  let avg_humidity := round1 (qmean df.Relative_Humidity)
  let high_demand_days : Int :=
    ((df.Max_Temp.zip df.Relative_Humidity).countP
      (fun p => decide (32 < p.1 ∧ 60 < p.2)) : Nat)
  (⟨avg_temp, max_temp, min_temp, cdd_total, extreme_heat_days, comfortable_days,
    avg_radiation, avg_solar_potential, optimal_solar_days, avg_humidity,
    high_demand_days⟩, df2)

/-! ### Advisory generator (source lines 156-227) -/

/-- The `user_context` dict (source lines 162-177), abridged to its two keys. -/
def user_context : List (String × String) :=
  [("home", "Focus on practical actions for families"),
   ("industry", "Focus on industrial optimization")]

/-- The prompt f-string of `generate_ai_suggestion` (source lines 179-220),
with the metric values interpolated in source order. -/
def buildPrompt (m : EnergyMetrics) (user_type zone : String) (days : Int) : String :=
  "You are a certified energy advisor. Analyze this climate data for " ++ zone ++
  " for the next " ++ toString days ++ " days and generate ONE energy saving suggestion." ++
  "\nUSER TYPE: " ++ user_type ++
  "\nZONE: " ++ zone ++
  "\nPERIOD: " ++ toString days ++ " days" ++
  "\nAverage temperature: " ++ toString m.avg_temp ++
  "\nMaximum expected temperature: " ++ toString m.max_temp ++
  "\nExtreme heat days: " ++ toString m.extreme_heat_days ++
  "\nCooling degree days: " ++ toString m.cdd_total ++
  "\nAverage solar radiation: " ++ toString m.avg_radiation ++
  "\nEffective solar potential: " ++ toString m.avg_solar_potential ++
  "\nOptimal solar days: " ++ toString m.optimal_solar_days ++
  "\nHigh demand days: " ++ toString m.high_demand_days ++
  "\nAverage relative humidity: " ++ toString m.avg_humidity ++
  "\n" ++ ((user_context.lookup user_type).getD "") ++
  "\nIMPORTANT: Maximum 200 words total. Use the numerical data provided."

/-- Head of the fallback string of `generate_ai_suggestion`
(source line 227). -/
def FALLBACK_HEAD : String := "⚠️ Error generating suggestion: "

/-- Tail of the fallback string of `generate_ai_suggestion`
(source line 227). -/
def FALLBACK_TAIL : String :=
  "\n\nBasic suggestion: Given the projected climate conditions, consider optimizing climate control usage during peak hours."

/-- `generate_ai_suggestion` (source lines 156-227): builds the prompt,
invokes the external text-generation service once (abstracted as `gen`), and
on any exception returns the deterministic fallback string embedding the
error.  The second component counts the generation-service invocations. -/
def generate_ai_suggestion (gen : String → Except String String)
    (m : EnergyMetrics) (user_type zone : String) (days : Int) : String × Nat :=
  match gen (buildPrompt m user_type zone days) with
  | .ok t => (t, 1)
  | .error e => (FALLBACK_HEAD ++ e ++ FALLBACK_TAIL, 1)

/-! ### JSON values, for the response bodies assembled by the endpoints -/

/-- A JSON value, as assembled by `jsonify` calls in the endpoints. -/
inductive JVal where
  | s (v : String)
  | q (v : ℚ)
  | i (v : Int)
  | b (v : Bool)
  | obj (fields : List (String × JVal))

mutual

/-- All keys occurring anywhere in a JSON value. -/
def jkeys : JVal → List String
  | .s _ => []
  | .q _ => []
  | .i _ => []
  | .b _ => []
  | .obj fs => jkeysList fs

/-- All keys occurring in a list of JSON object fields. -/
def jkeysList : List (String × JVal) → List String
  | [] => []
  | (k, v) :: rest => k :: (jkeys v ++ jkeysList rest)

end

/-- Top-level field lookup in a JSON object. -/
def jlookup (k : String) : JVal → Option JVal
  | .obj fs => (fs.find? (fun p => p.1 == k)).map Prod.snd
  | _ => none

/-- The `"metrics"` sub-object of the analyze response (source line 434),
with the keys in the dict-insertion order of `calculate_energy_metrics`. -/
def metricsToJ (m : EnergyMetrics) : JVal :=
  .obj [("avg_temp", .q m.avg_temp), ("max_temp", .q m.max_temp),
        ("min_temp", .q m.min_temp), ("cdd_total", .q m.cdd_total),
        ("extreme_heat_days", .i m.extreme_heat_days),
        ("comfortable_days", .i m.comfortable_days),
        ("avg_radiation", .q m.avg_radiation),
        ("avg_solar_potential", .q m.avg_solar_potential),
        ("optimal_solar_days", .i m.optimal_solar_days),
        ("avg_humidity", .q m.avg_humidity),
        ("high_demand_days", .i m.high_demand_days)]

/-! ### The /api/analyze endpoint (source lines 375-449) -/

/-- The JSON body of a POST to `/api/analyze` (source lines 390-400): every
field optional, defaults applied by `data.get`. -/
structure AnalyzeReq where
  user_type : Option String := none
  zona : Option String := none
  days : Option Int := none
  lat : Option ℚ := none
  lon : Option ℚ := none
  tz : Option String := none

/-- Outcome of an `/api/analyze` request: response body, HTTP status, the
cache state afterwards, and the number of forecast-fetch and
text-generation invocations performed. -/
structure AnalyzeResult where
  resp : JVal
  status : Nat
  cache : Cache
  fetchCount : Nat
  genCount : Nat

/-- The happy path of `analyze` after validation (source lines 413-442):
cached climate fetch, metrics (mutating the cached frame in place),
suggestion, charts, response dict.  The timestamp field is real time and is
modelled as the empty string. -/
def analyzeValidated (today : Int) (fetch : FetchParams → Except String DataFrame)
    (gen : String → Except String String) (render : DataFrame → String → String × String)
    (st : Cache) (user_type zone : String) (days : Int)
    (lat lon : Option ℚ) (tz : Option String) : AnalyzeResult :=
  let k : CacheKey := ⟨zone, days, lat, lon, tz⟩
  let r := get_climate_data today fetch st k
  match r.1 with
  | .error e =>
    ⟨.obj [("success", .b false), ("error", .s e), ("timestamp", .s "")],
      500, r.2.1, r.2.2, 0⟩
  | .ok df =>
    let md := calculate_energy_metrics df
    let st2 := cacheWriteThrough r.2.1 k md.2
    let sg := generate_ai_suggestion gen md.1 user_type zone days
    let charts := render md.2 zone
    ⟨.obj [("success", .b true), ("timestamp", .s ""),
           ("parameters", .obj [("user_type", .s user_type), ("zone", .s zone),
                                ("days", .i days)]),
           ("metrics", metricsToJ md.1), ("suggestion", .s sg.1),
           ("charts", .obj [("temperature", .s charts.1), ("solar", .s charts.2)])],
      200, st2, r.2.2, sg.2⟩

/-- The `/api/analyze` endpoint (source lines 375-449): defaults
(`user_type` "home", `zona` "new-york", `days` 30), lowercasing of
`user_type`, then the three validations in source order, then the pipeline. -/
def analyze (today : Int) (fetch : FetchParams → Except String DataFrame)
    (gen : String → Except String String) (render : DataFrame → String → String × String)
    (st : Cache) (req : AnalyzeReq) : AnalyzeResult :=
  let user_type := pyLower (req.user_type.getD "home")
  let zone := req.zona.getD "new-york"
  let days := req.days.getD 30
  if user_type ≠ "home" ∧ user_type ≠ "industry" then
    ⟨.obj [("error", .s "user_type must be home or industry")], 400, st, 0, 0⟩
  else if (ZONE_COORDINATES.lookup (pyLower zone)) = none ∧ (req.lat = none ∨ req.lon = none) then
    ⟨.obj [("error", .s ("Zone " ++ zone ++ " is not predefined. Provide coordinates (lat, lon) or search for a location."))],
      400, st, 0, 0⟩
  else if ¬ (7 ≤ days ∧ days ≤ 365) then
    ⟨.obj [("error", .s "Days range must be between 7 and 365")], 400, st, 0, 0⟩
  else
    analyzeValidated today fetch gen render st user_type zone days req.lat req.lon req.tz

/-! ### The /api/export-csv endpoint (source lines 452-494) -/

/-- The JSON body of a POST to `/api/export-csv` (source lines 467-472). -/
structure ExportReq where
  zona : Option String := none
  days : Option Int := none
  lat : Option ℚ := none
  lon : Option ℚ := none
  tz : Option String := none

/-- Outcome of an `/api/export-csv` request: the frame serialized to CSV (or
the error), the cache state afterwards, and the fetch invocation count. -/
structure ExportResult where
  result : Except String DataFrame
  cache : Cache
  fetchCount : Nat

/-- The `/api/export-csv` endpoint (source lines 452-494): applies the same
defaults and calls `get_climate_data` directly — note it performs no
validation of `days` (or anything else) before the fetch. -/
def export_csv (today : Int) (fetch : FetchParams → Except String DataFrame)
    (st : Cache) (req : ExportReq) : ExportResult :=
  let zone := req.zona.getD "new-york"
  let days := req.days.getD 30
  let r := get_climate_data today fetch st ⟨zone, days, req.lat, req.lon, req.tz⟩
  ⟨r.1, r.2.1, r.2.2⟩

/-- Column list of an export outcome (`df.to_csv` writes the frame's columns,
source line 479); empty on error. -/
def exportColumns (r : Except String DataFrame) : List String :=
  match r with
  | .ok df => df.columns
  | .error _ => []

/-! ### The fetcher's normalization step over raw payloads (source lines 100-115) -/

/-- The `daily` block of the provider's JSON payload (source lines 86-103):
parallel arrays, one value per day, where a missing value is `none`
(a JSON null, which pandas turns into NaN). -/
structure DailyPayload where
  time : List Int
  temperature_2m_mean : List (Option ℚ)
  temperature_2m_max : List (Option ℚ)
  relative_humidity_2m_mean : List (Option ℚ)
  shortwave_radiation_sum : List (Option ℚ)
  cloud_cover_mean : List (Option ℚ)
  wind_speed_10m_mean : List (Option ℚ)
deriving DecidableEq, Repr

/-- The raw frame after `pd.DataFrame(data["daily"])` and the column rename
(source lines 103-115), before any values are required to be present. -/
structure RawFrame where
  Date : List Int
  Avg_Temp : List (Option ℚ)
  Max_Temp : List (Option ℚ)
  Relative_Humidity : List (Option ℚ)
  Solar_Radiation : List (Option ℚ)
  Cloud_Cover : List (Option ℚ)
  Wind_Speed : List (Option ℚ)
deriving DecidableEq, Repr

/-- The normalization performed by `get_climate_data` on the provider payload
(source lines 102-115): build the frame and rename the columns.  No row is
filtered, no missing value is rejected. -/
def normalize_daily (p : DailyPayload) : RawFrame :=
  ⟨p.time, p.temperature_2m_mean, p.temperature_2m_max, p.relative_humidity_2m_mean,
   p.shortwave_radiation_sum, p.cloud_cover_mean, p.wind_speed_10m_mean⟩

/-! ### Concrete sample data used by the concrete evaluations -/

/-- The 7-day series of the end-to-end example: daily average temperatures
`[20, 22, 26, 30, 25, 23, 21]`, the other columns filled with plausible
values. -/
def exampleDf : DataFrame :=
  { Date := [0, 1, 2, 3, 4, 5, 6],
    Avg_Temp := [20, 22, 26, 30, 25, 23, 21],
    Max_Temp := [25, 27, 31, 36, 30, 28, 26],
    Relative_Humidity := [50, 55, 60, 65, 62, 58, 52],
    Solar_Radiation := [20, 18, 22, 25, 21, 19, 17],
    Cloud_Cover := [30, 45, 20, 10, 35, 50, 25],
    Wind_Speed := [10, 12, 9, 8, 11, 10, 13],
    extra := [] }

/-- A forecast effect that always succeeds with the sample series. -/
def sampleFetch : FetchParams → Except String DataFrame := fun _ => .ok exampleDf

/-- A text-generation effect that always succeeds. -/
def sampleGen : String → Except String String := fun _ => .ok "generated suggestion"

/-- A chart-rendering effect producing two fixed encoded images. -/
def sampleRender : DataFrame → String → String × String := fun _ _ => ("imgT", "imgS")

/-!
## Claim theorems
-/

/-- Helper: one-decimal rounding preserves nonnegativity. -/
theorem round1_nonneg {q : ℚ} (h : 0 ≤ q) : 0 ≤ round1 q := by
  unfold round1
  apply div_nonneg _ (by norm_num)
  have h10 : (0 : ℚ) ≤ 10 * q := by linarith
  have : (0 : ℤ) ≤ round (10 * q) := by
    rw [round_eq]
    exact Int.floor_nonneg.mpr (by linarith)
  exact_mod_cast this

/-- C1: for every ClimateSeries, `cdd_total` computed by
`calculate_energy_metrics` equals the one-decimal rounding of the sum over
all days of `max(avg_temp - 24, 0)`; it is always nonnegative; and on the
7-day example series with average temperatures `[20,22,26,30,25,23,21]` it
equals 9. -/
theorem c1_cdd_total (df : DataFrame) :
    (calculate_energy_metrics df).1.cdd_total
        = round1 ((df.Avg_Temp.map (fun t => max (t - 24) 0)).sum)
    ∧ 0 ≤ (calculate_energy_metrics df).1.cdd_total
    ∧ (calculate_energy_metrics exampleDf).1.cdd_total = 9 := by
  refine ⟨rfl, ?_, ?_⟩
  · show 0 ≤ round1 ((df.Avg_Temp.map (fun t => max (t - TEMP_COMFORT) 0)).sum)
    apply round1_nonneg
    apply List.sum_nonneg
    intro x hx
    obtain ⟨t, _, rfl⟩ := List.mem_map.mp hx
    exact le_max_right _ _
  · have hsum : ((exampleDf.Avg_Temp.map (fun t => max (t - 24) 0)).sum : ℚ) = 9 := by
      simp only [exampleDf, List.map_cons, List.map_nil, List.sum_cons, List.sum_nil]
      norm_num [max_def]
    have h9 : round1 (9 : ℚ) = 9 := by
      unfold round1
      have h90 : (10 : ℚ) * 9 = ((90 : ℤ) : ℚ) := by norm_num
      rw [h90, round_intCast]
      norm_num
    calc (calculate_energy_metrics exampleDf).1.cdd_total
        = round1 ((exampleDf.Avg_Temp.map (fun t => max (t - 24) 0)).sum) := rfl
      _ = round1 9 := by rw [hsum]
      _ = 9 := h9

/-- A payload whose second daily record is missing its average temperature. -/
def missingPayload : DailyPayload :=
  { time := [0, 1, 2],
    temperature_2m_mean := [some 20, none, some 22],
    temperature_2m_max := [some 25, some 26, some 27],
    relative_humidity_2m_mean := [some 50, some 51, some 52],
    shortwave_radiation_sum := [some 20, some 21, some 22],
    cloud_cover_mean := [some 30, some 31, some 32],
    wind_speed_10m_mean := [some 10, some 11, some 12] }

/-- C6 counterexample: a payload whose second record is missing its average
temperature passes through the fetcher's normalization unrejected — all
three records are retained and the missing value is still present in the
resulting frame, refuting the claimed missing-field rejection. -/
theorem c6_counterexample :
    (normalize_daily missingPayload).Date.length = 3
    ∧ (normalize_daily missingPayload).Avg_Temp = [some 20, none, some 22] :=
  ⟨rfl, rfl⟩

/-- C6 amended: the fetcher's normalization step only renames columns — it
retains every daily record unchanged, including records missing numeric
fields, so missing values are passed on toward the metrics computation
instead of being rejected. -/
theorem c6_normalize_rejects_nothing (p : DailyPayload) :
    (normalize_daily p).Date = p.time
    ∧ (normalize_daily p).Avg_Temp = p.temperature_2m_mean
    ∧ (normalize_daily p).Max_Temp = p.temperature_2m_max
    ∧ (normalize_daily p).Relative_Humidity = p.relative_humidity_2m_mean
    ∧ (normalize_daily p).Solar_Radiation = p.shortwave_radiation_sum
    ∧ (normalize_daily p).Cloud_Cover = p.cloud_cover_mean
    ∧ (normalize_daily p).Wind_Speed = p.wind_speed_10m_mean :=
  ⟨rfl, rfl, rfl, rfl, rfl, rfl, rfl⟩

/-- C8: for every valid horizon h in [7, 365], the fetch parameters carry
start_date = today and end_date = today + h; the endpoint-inclusive daily
range they request therefore has exactly h + 1 records with strictly
increasing dates. -/
theorem c8_date_range (today : Int) (k : CacheKey) (p : FetchParams) (h : Nat)
    (hdays : k.days_ahead = (h : Int)) (h7 : 7 ≤ h) (h365 : h ≤ 365)
    (hp : get_climate_data_params today k = .ok p) :
    p.start_date = today ∧ p.end_date = today + (h : Int)
    ∧ (providerDates p.start_date p.end_date).length = h + 1
    ∧ (providerDates p.start_date p.end_date).Pairwise (· < ·) := by
  unfold get_climate_data_params at hp
  cases hres : resolveCoords k.zone k.lat k.lon k.tz with
  | error e => rw [hres] at hp; exact absurd hp (by simp)
  | ok c =>
    rw [hres] at hp
    have hpe : p = ⟨c.lat, c.lon, today, today + k.days_ahead, c.tz⟩ := by
      cases hp; rfl
    subst hpe
    refine ⟨rfl, by rw [hdays], ?_, ?_⟩
    · dsimp only
      rw [providerDates, List.length_map, List.length_range, hdays]
      omega
    · unfold providerDates
      exact List.Pairwise.map _ (fun a b hab => by omega) (List.pairwise_lt_range _)

/-- The fetch parameters of a 7-day request for "new-york" issued on day 0. -/
def pNY7 : FetchParams := ⟨40.7128, -74.0060, 0, 7, "America/New_York"⟩

/-- C8 witness: the theorem instantiated at the 7-day "new-york" request. -/
theorem c8_witness :
    pNY7.start_date = 0 ∧ pNY7.end_date = 0 + ((7 : ℕ) : ℤ)
    ∧ (providerDates pNY7.start_date pNY7.end_date).length = 7 + 1
    ∧ (providerDates pNY7.start_date pNY7.end_date).Pairwise (· < ·) :=
  c8_date_range 0 ⟨"new-york", 7, none, none, none⟩ pNY7 7 rfl (by norm_num)
    (by norm_num) (by rfl)

/-- Helper: a key absent from the cache is not found. -/
theorem find_none_of_not_mem {st : Cache} {k : CacheKey} (h : k ∉ cacheKeys st) :
    st.find? (fun e => e.1 == k) = none := by
  apply List.find?_eq_none.mpr
  intro e he
  simp only [beq_iff_eq]
  intro hek
  exact h (hek ▸ List.mem_map_of_mem Prod.fst he)

/-- Helper: the body fetch succeeds when resolution and the fetch do. -/
theorem body_ok {today : Int} {fetch : FetchParams → Except String DataFrame}
    {k : CacheKey} {p : FetchParams} {df : DataFrame}
    (hp : get_climate_data_params today k = .ok p) (hf : fetch p = .ok df) :
    get_climate_data_body today fetch k = .ok df := by
  unfold get_climate_data_body
  rw [hp]
  exact hf

/-- Helper: the shape of a cache miss — the value is fetched once, inserted
at the front, and the rest of the new state is a sublist of the old one. -/
theorem get_miss_shape {today : Int} {fetch : FetchParams → Except String DataFrame}
    {st : Cache} {k : CacheKey} {p : FetchParams} {df : DataFrame}
    (hp : get_climate_data_params today k = .ok p) (hf : fetch p = .ok df)
    (hk : k ∉ cacheKeys st) :
    ∃ rest, get_climate_data today fetch st k = (.ok df, (k, df) :: rest, 1)
      ∧ rest.Sublist st := by
  have hfind := find_none_of_not_mem hk
  have hbody := body_ok hp hf
  unfold get_climate_data
  rw [hfind, hbody]
  dsimp only
  by_cases hlen : ((k, df) :: st).length > LRU_MAXSIZE
  · refine ⟨st.dropLast, ?_, List.dropLast_sublist st⟩
    rw [if_pos hlen]
    have hne : st ≠ [] := by
      intro hnil
      rw [hnil] at hlen
      simp [LRU_MAXSIZE] at hlen
    obtain ⟨a, st', rfl⟩ := List.exists_cons_of_ne_nil hne
    rfl
  · exact ⟨st, by rw [if_neg hlen], List.Sublist.refl st⟩

/-- Helper: a hit on the key at the front of the cache. -/
theorem get_hit_front {today : Int} {fetch : FetchParams → Except String DataFrame}
    {rest : Cache} {k : CacheKey} {df : DataFrame} :
    (get_climate_data today fetch ((k, df) :: rest) k).1 = .ok df
    ∧ (get_climate_data today fetch ((k, df) :: rest) k).2.2 = 0 := by
  unfold get_climate_data
  rw [List.find?_cons_of_pos _ (by simp)]
  exact ⟨rfl, rfl⟩

/-- C5: issuing the same (zone, horizon, lat, lon, tz) request twice in
sequence, starting from any cache state that does not yet hold the key,
invokes the external forecast fetch exactly once — the first call fetches,
the second is answered from the cache; and when the insertion pushes the
entry count past the fixed capacity of 100, the least-recently-used (last)
entry is evicted and the entry count stays at the capacity. -/
theorem c5_cache_single_fetch (today : Int) (fetch : FetchParams → Except String DataFrame)
    (st : Cache) (k : CacheKey) (p : FetchParams) (df : DataFrame)
    (hp : get_climate_data_params today k = .ok p) (hf : fetch p = .ok df)
    (hk : k ∉ cacheKeys st) (hnd : (cacheKeys st).Nodup) :
    (get_climate_data today fetch st k).2.2 = 1
    ∧ (get_climate_data today fetch (get_climate_data today fetch st k).2.1 k).2.2 = 0
    ∧ (get_climate_data today fetch st k).1 = .ok df
    ∧ (get_climate_data today fetch (get_climate_data today fetch st k).2.1 k).1 = .ok df
    ∧ (st.length = LRU_MAXSIZE →
        (get_climate_data today fetch st k).2.1.length = LRU_MAXSIZE
        ∧ ∀ l, st.getLast? = some l →
            l.1 ∉ cacheKeys (get_climate_data today fetch st k).2.1) := by
  obtain ⟨rest, hshape, hsub⟩ := get_miss_shape hp hf hk
  rw [hshape]
  refine ⟨rfl, get_hit_front.2, rfl, get_hit_front.1, ?_⟩
  intro hlen
  have hne : st ≠ [] := by
    intro hnil
    rw [hnil] at hlen
    simp [LRU_MAXSIZE] at hlen
  -- at full capacity the shape is forced into the dropLast branch
  have hdrop : rest = st.dropLast := by
    have hfind := find_none_of_not_mem hk
    have hbody := body_ok hp hf
    have hcond : ((k, df) :: st).length > LRU_MAXSIZE := by
      simp only [List.length_cons, hlen]
      omega
    have : get_climate_data today fetch st k = (.ok df, ((k, df) :: st).dropLast, 1) := by
      unfold get_climate_data
      rw [hfind, hbody]
      simp only [hcond, if_pos]
    rw [hshape] at this
    obtain ⟨a, st', rfl⟩ := List.exists_cons_of_ne_nil hne
    have h2 : ((k, df) :: (a :: st')).dropLast = (k, df) :: (a :: st').dropLast := rfl
    rw [h2] at this
    have := congrArg (fun x => x.2.1) this
    simpa using this
  subst hdrop
  constructor
  · simp only [List.length_cons, List.length_dropLast, hlen]
    simp [LRU_MAXSIZE]
  · intro l hl
    have hlast : st.getLast hne = l := by
      rw [List.getLast?_eq_getLast st hne] at hl
      exact (Option.some_injective _ hl)
    have hst : st.dropLast ++ [l] = st := by
      rw [← hlast]
      exact List.dropLast_append_getLast hne
    have hmem : l ∈ st := by
      rw [← hst]
      exact List.mem_append_right _ (List.mem_singleton_self l)
    have hlk : l.1 ≠ k := by
      intro hcontr
      exact hk (hcontr ▸ List.mem_map_of_mem Prod.fst hmem)
    have hkeys : cacheKeys st = cacheKeys st.dropLast ++ [l.1] := by
      conv_lhs => rw [← hst]
      unfold cacheKeys
      rw [List.map_append]
      rfl
    have hnotin : l.1 ∉ cacheKeys st.dropLast := by
      intro hcontr
      rw [hkeys] at hnd
      exact (List.nodup_append.mp hnd).2.2 hcontr (List.mem_singleton_self _)
    intro hcontr
    rcases List.mem_cons.mp hcontr with h1 | h2
    · exact hlk h1
    · exact hnotin h2

/-- A full cache: 100 distinct keys, none of them "new-york". -/
def st100 : Cache :=
  (List.range 100).map (fun i => (⟨"z", (i : Int), none, none, none⟩, exampleDf))

/-- The raw argument tuple of a default 30-day "new-york" request. -/
def kNY30 : CacheKey := ⟨"new-york", 30, none, none, none⟩

/-- The fetch parameters resolved from `kNY30` on day 0. -/
def pNY30 : FetchParams := ⟨40.7128, -74.0060, 0, 30, "America/New_York"⟩

/-- C5 witness: the theorem instantiated at a full 100-entry cache and the
30-day "new-york" request. -/
theorem c5_witness :
    (get_climate_data 0 sampleFetch st100 kNY30).2.2 = 1
    ∧ (get_climate_data 0 sampleFetch
        (get_climate_data 0 sampleFetch st100 kNY30).2.1 kNY30).2.2 = 0
    ∧ (get_climate_data 0 sampleFetch st100 kNY30).1 = .ok exampleDf
    ∧ (get_climate_data 0 sampleFetch
        (get_climate_data 0 sampleFetch st100 kNY30).2.1 kNY30).1 = .ok exampleDf
    ∧ (st100.length = LRU_MAXSIZE →
        (get_climate_data 0 sampleFetch st100 kNY30).2.1.length = LRU_MAXSIZE
        ∧ ∀ l, st100.getLast? = some l →
            l.1 ∉ cacheKeys (get_climate_data 0 sampleFetch st100 kNY30).2.1) :=
  c5_cache_single_fetch 0 sampleFetch st100 kNY30 pNY30 exampleDf rfl rfl
    (by decide) (by decide)

/-- The raw argument tuple of a "Miami" request (capitalized zone). -/
def keyMiamiUpper (d : Int) : CacheKey := ⟨"Miami", d, none, none, none⟩

/-- The raw argument tuple of a "miami" request (lowercase zone). -/
def keyMiamiLower (d : Int) : CacheKey := ⟨"miami", d, none, none, none⟩

/-- C9: the cache keys on the raw argument tuple while resolution lowercases
the zone, so "Miami" and "miami" requests with identical other arguments
resolve to the same location yet occupy distinct cache entries, and the
second request performs a second external fetch. -/
theorem c9_case_sensitive_cache_keys (today d : Int)
    (fetch : FetchParams → Except String DataFrame) (st : Cache)
    (p : FetchParams) (df : DataFrame)
    (hp : get_climate_data_params today (keyMiamiUpper d) = .ok p)
    (hf : fetch p = .ok df)
    (h1 : keyMiamiUpper d ∉ cacheKeys st)
    (h2 : keyMiamiLower d ∉ cacheKeys st) :
    resolveCoords "Miami" none none none = resolveCoords "miami" none none none
    ∧ keyMiamiUpper d ≠ keyMiamiLower d
    ∧ (get_climate_data today fetch st (keyMiamiUpper d)).2.2 = 1
    ∧ (get_climate_data today fetch
        (get_climate_data today fetch st (keyMiamiUpper d)).2.1
        (keyMiamiLower d)).2.2 = 1 := by
  obtain ⟨rest, hshape, hsub⟩ := get_miss_shape hp hf h1
  have hne : keyMiamiLower d ≠ keyMiamiUpper d := by
    simp [keyMiamiUpper, keyMiamiLower]
  refine ⟨rfl, fun h => hne h.symm, by rw [hshape], ?_⟩
  rw [hshape]
  have hkL : keyMiamiLower d ∉ cacheKeys ((keyMiamiUpper d, df) :: rest) := by
    intro hmem
    rcases List.mem_cons.mp hmem with h | h
    · exact hne h
    · exact h2 ((hsub.map Prod.fst).subset h)
  unfold get_climate_data
  rw [find_none_of_not_mem hkL]
  dsimp only
  rcases hb : get_climate_data_body today fetch (keyMiamiLower d) with e | v <;> rfl

/-- The fetch parameters resolved from a 30-day Miami request on day 0. -/
def pMiami30 : FetchParams := ⟨25.7617, -80.1918, 0, 30, "America/New_York"⟩

/-- C9 witness: the theorem instantiated at an empty cache and 30-day
horizon. -/
theorem c9_witness :
    resolveCoords "Miami" none none none = resolveCoords "miami" none none none
    ∧ keyMiamiUpper 30 ≠ keyMiamiLower 30
    ∧ (get_climate_data 0 sampleFetch [] (keyMiamiUpper 30)).2.2 = 1
    ∧ (get_climate_data 0 sampleFetch
        (get_climate_data 0 sampleFetch [] (keyMiamiUpper 30)).2.1
        (keyMiamiLower 30)).2.2 = 1 :=
  c9_case_sensitive_cache_keys 0 30 sampleFetch [] pMiami30 exampleDf rfl rfl
    (by decide) (by decide)

/-- C2 counterexample: a request to the export-csv boundary operation with
days = 6 (outside [7, 365]) is not rejected as an input error: the forecast
fetcher is invoked once, refuting the claim for this boundary operation. -/
theorem c2_counterexample :
    (export_csv 0 sampleFetch []
      { zona := some "new-york", days := some 6 }).fetchCount = 1 := rfl

/-- C2 amended: the analyze endpoint does validate the horizon before any
external call — for every request whose days value (after the default of 30)
lies outside [7, 365], in particular 6 and 366, the request is rejected with
status 400 and the forecast fetcher is invoked zero times.  The export-csv
endpoint performs no horizon validation at all (see the counterexample). -/
theorem c2_analyze_horizon_validation (today : Int)
    (fetch : FetchParams → Except String DataFrame)
    (gen : String → Except String String)
    (render : DataFrame → String → String × String)
    (st : Cache) (req : AnalyzeReq)
    (h : ¬ (7 ≤ req.days.getD 30 ∧ req.days.getD 30 ≤ 365)) :
    (analyze today fetch gen render st req).fetchCount = 0
    ∧ (analyze today fetch gen render st req).status = 400 := by
  unfold analyze
  dsimp only
  split_ifs with h1 h2
  · exact ⟨rfl, rfl⟩
  · exact ⟨rfl, rfl⟩
  · exact ⟨rfl, rfl⟩

/-- C2 witness: the amended theorem instantiated at days = 6 and at
days = 366. -/
theorem c2_witness :
    ((analyze 0 sampleFetch sampleGen sampleRender []
        { zona := some "new-york", days := some 6 }).fetchCount = 0
      ∧ (analyze 0 sampleFetch sampleGen sampleRender []
        { zona := some "new-york", days := some 6 }).status = 400)
    ∧ ((analyze 0 sampleFetch sampleGen sampleRender []
        { zona := some "new-york", days := some 366 }).fetchCount = 0
      ∧ (analyze 0 sampleFetch sampleGen sampleRender []
        { zona := some "new-york", days := some 366 }).status = 400) :=
  ⟨c2_analyze_horizon_validation 0 sampleFetch sampleGen sampleRender []
      { zona := some "new-york", days := some 6 } (by decide),
    c2_analyze_horizon_validation 0 sampleFetch sampleGen sampleRender []
      { zona := some "new-york", days := some 366 } (by decide)⟩

/-- C7: a request whose zone (after the default) fails the case-insensitive
catalog lookup and which supplies no coordinates is rejected with the
unknown-zone error and status 400, with the forecast fetcher invoked zero
times; and the catalog zone "new-york" with no coordinates resolves to
(40.7128, -74.0060, "America/New_York"). -/
theorem c7_unknown_zone (today : Int)
    (fetch : FetchParams → Except String DataFrame)
    (gen : String → Except String String)
    (render : DataFrame → String → String × String)
    (st : Cache) (req : AnalyzeReq)
    (hu : pyLower (req.user_type.getD "home") = "home"
          ∨ pyLower (req.user_type.getD "home") = "industry")
    (hz : ZONE_COORDINATES.lookup (pyLower (req.zona.getD "new-york")) = none)
    (hlat : req.lat = none) :
    (analyze today fetch gen render st req).status = 400
    ∧ (analyze today fetch gen render st req).fetchCount = 0
    ∧ (analyze today fetch gen render st req).resp
        = .obj [("error", .s ("Zone " ++ req.zona.getD "new-york" ++
            " is not predefined. Provide coordinates (lat, lon) or search for a location."))]
    ∧ resolveCoords "new-york" none none none
        = .ok ⟨40.7128, -74.0060, "America/New_York"⟩ := by
  have h1 : ¬ (pyLower (req.user_type.getD "home") ≠ "home"
      ∧ pyLower (req.user_type.getD "home") ≠ "industry") := by
    rcases hu with h | h
    · exact fun hc => hc.1 h
    · exact fun hc => hc.2 h
  unfold analyze
  dsimp only
  rw [if_neg h1, if_pos ⟨hz, Or.inl hlat⟩]
  exact ⟨rfl, rfl, rfl, rfl⟩

/-- C7 witness: the theorem instantiated at the zone "Unknown-Place" with no
coordinates. -/
theorem c7_witness :
    (analyze 0 sampleFetch sampleGen sampleRender []
        { zona := some "Unknown-Place" }).status = 400
    ∧ (analyze 0 sampleFetch sampleGen sampleRender []
        { zona := some "Unknown-Place" }).fetchCount = 0
    ∧ (analyze 0 sampleFetch sampleGen sampleRender []
        { zona := some "Unknown-Place" }).resp
        = .obj [("error", .s ("Zone " ++
            ({ zona := some "Unknown-Place" : AnalyzeReq}).zona.getD "new-york" ++
            " is not predefined. Provide coordinates (lat, lon) or search for a location."))]
    ∧ resolveCoords "new-york" none none none
        = .ok ⟨40.7128, -74.0060, "America/New_York"⟩ :=
  c7_unknown_zone 0 sampleFetch sampleGen sampleRender []
    { zona := some "Unknown-Place" } (Or.inl (by decide)) (by decide) rfl

/-- Helper: with a total (never-failing) fetch effect, a cached climate
lookup whose parameters resolve always returns some frame. -/
theorem get_ok_of_total (today : Int) (fetch : FetchParams → DataFrame)
    (st : Cache) (k : CacheKey) (p : FetchParams)
    (hp : get_climate_data_params today k = .ok p) :
    ∃ d, (get_climate_data today (fun q => .ok (fetch q)) st k).1 = .ok d := by
  unfold get_climate_data
  rcases hfind : st.find? (fun e => e.1 == k) with _ | e
  · rw [hfind, body_ok hp rfl]
    exact ⟨fetch p, rfl⟩
  · rw [hfind]
    exact ⟨e.2, rfl⟩

/-- C10: analyze fills in defaults for absent request fields — user_type
"home", zone "new-york", days 30 — and lowercases user_type before
validating it, so "HOME" is accepted: with any total fetch effect, an empty
request body and a body with user_type "HOME" both proceed as a successful
30-day "home" analysis of "new-york". -/
theorem c10_defaults (today : Int) (fetch : FetchParams → DataFrame)
    (gen : String → Except String String)
    (render : DataFrame → String → String × String) (st : Cache) :
    (analyze today (fun p => .ok (fetch p)) gen render st {}).status = 200
    ∧ jlookup "success" (analyze today (fun p => .ok (fetch p)) gen render st {}).resp
        = some (.b true)
    ∧ jlookup "parameters" (analyze today (fun p => .ok (fetch p)) gen render st {}).resp
        = some (.obj [("user_type", .s "home"), ("zone", .s "new-york"), ("days", .i 30)])
    ∧ (analyze today (fun p => .ok (fetch p)) gen render st
        { user_type := some "HOME" }).status = 200
    ∧ jlookup "parameters" (analyze today (fun p => .ok (fetch p)) gen render st
        { user_type := some "HOME" }).resp
        = some (.obj [("user_type", .s "home"), ("zone", .s "new-york"), ("days", .i 30)]) := by
  have hcommon : ∀ req : AnalyzeReq, pyLower (req.user_type.getD "home") = "home" →
      req.zona = none → req.days = none → req.lat = none → req.lon = none → req.tz = none →
      (analyze today (fun p => .ok (fetch p)) gen render st req).status = 200
      ∧ jlookup "success" (analyze today (fun p => .ok (fetch p)) gen render st req).resp
          = some (.b true)
      ∧ jlookup "parameters" (analyze today (fun p => .ok (fetch p)) gen render st req).resp
          = some (.obj [("user_type", .s "home"), ("zone", .s "new-york"), ("days", .i 30)]) := by
    intro req hut hz hd hlat hlon htz
    unfold analyze
    dsimp only
    rw [hz, hd, hlat, hlon, htz, hut]
    simp only [Option.getD_none]
    rw [if_neg (by simp), if_neg (by decide), if_neg (by decide)]
    obtain ⟨d, hd2⟩ := get_ok_of_total today fetch st
      ⟨"new-york", (30 : Int), none, none, none⟩
      ⟨40.7128, -74.0060, today, today + 30, "America/New_York"⟩ rfl
    unfold analyzeValidated
    dsimp only
    rw [hd2]
    exact ⟨rfl, rfl, rfl⟩
  refine ⟨?_, ?_, ?_, ?_, ?_⟩
  · exact (hcommon {} (by decide) rfl rfl rfl rfl rfl).1
  · exact (hcommon {} (by decide) rfl rfl rfl rfl rfl).2.1
  · exact (hcommon {} (by decide) rfl rfl rfl rfl rfl).2.2
  · exact (hcommon { user_type := some "HOME" } (by decide) rfl rfl rfl rfl rfl).1
  · exact (hcommon { user_type := some "HOME" } (by decide) rfl rfl rfl rfl rfl).2.2

/-- A text-generation effect that always fails with the error "boom". -/
def failGen : String → Except String String := fun _ => .error "boom"

/-- C4 counterexample: in a run where text generation fails, the pipeline
does return the deterministic fallback suggestion and still succeeds, but no
field named "source" exists anywhere in the response — the claimed
source = "fallback" field is absent from the code's output. -/
theorem c4_counterexample :
    (analyze 0 sampleFetch failGen sampleRender [] {}).status = 200
    ∧ jlookup "suggestion" (analyze 0 sampleFetch failGen sampleRender [] {}).resp
        = some (.s (FALLBACK_HEAD ++ "boom" ++ FALLBACK_TAIL))
    ∧ "source" ∉ jkeys (analyze 0 sampleFetch failGen sampleRender [] {}).resp :=
  ⟨rfl, rfl, by decide⟩

/-- C4 amended: on any text-generation failure the advisory generator
returns, without retrying (exactly one generator invocation), the
deterministic fallback string embedding the error plus a fixed generic
recommendation; the string is non-empty; and the pipeline request still
succeeds, serving the fallback as its suggestion.  The response exposes no
source field (see the counterexample) — the fallback is identifiable only by
its fixed prefix. -/
theorem c4_generation_fallback (today : Int)
    (fetch : FetchParams → Except String DataFrame)
    (render : DataFrame → String → String × String)
    (st : Cache) (req : AnalyzeReq) (e : String) (df : DataFrame)
    (hu : pyLower (req.user_type.getD "home") = "home"
          ∨ pyLower (req.user_type.getD "home") = "industry")
    (hz : ¬ ((ZONE_COORDINATES.lookup (pyLower (req.zona.getD "new-york"))) = none
              ∧ (req.lat = none ∨ req.lon = none)))
    (hd : 7 ≤ req.days.getD 30 ∧ req.days.getD 30 ≤ 365)
    (hfetch : (get_climate_data today fetch st
        ⟨req.zona.getD "new-york", req.days.getD 30, req.lat, req.lon, req.tz⟩).1
        = .ok df) :
    (analyze today fetch (fun _ => .error e) render st req).status = 200
    ∧ jlookup "success" (analyze today fetch (fun _ => .error e) render st req).resp
        = some (.b true)
    ∧ jlookup "suggestion" (analyze today fetch (fun _ => .error e) render st req).resp
        = some (.s (FALLBACK_HEAD ++ e ++ FALLBACK_TAIL))
    ∧ (analyze today fetch (fun _ => .error e) render st req).genCount = 1
    ∧ FALLBACK_HEAD ++ e ++ FALLBACK_TAIL ≠ "" := by
  have h1 : ¬ (pyLower (req.user_type.getD "home") ≠ "home"
      ∧ pyLower (req.user_type.getD "home") ≠ "industry") := by
    rcases hu with h | h
    · exact fun hc => hc.1 h
    · exact fun hc => hc.2 h
  unfold analyze
  dsimp only
  rw [if_neg h1, if_neg hz, if_neg (not_not_intro hd)]
  unfold analyzeValidated
  dsimp only
  rw [hfetch]
  refine ⟨rfl, rfl, rfl, rfl, ?_⟩
  intro hemp
  have hlen := congrArg String.length hemp
  rw [String.length_append, String.length_append] at hlen
  have hH : 0 < FALLBACK_HEAD.length := by decide
  simp at hlen
  omega

/-- C4 witness: the amended theorem instantiated at an empty request and a
generation service failing with "boom". -/
theorem c4_witness :
    (analyze 0 sampleFetch (fun _ => .error "boom") sampleRender [] {}).status = 200
    ∧ jlookup "success"
        (analyze 0 sampleFetch (fun _ => .error "boom") sampleRender [] {}).resp
        = some (.b true)
    ∧ jlookup "suggestion"
        (analyze 0 sampleFetch (fun _ => .error "boom") sampleRender [] {}).resp
        = some (.s (FALLBACK_HEAD ++ "boom" ++ FALLBACK_TAIL))
    ∧ (analyze 0 sampleFetch (fun _ => .error "boom") sampleRender [] {}).genCount = 1
    ∧ FALLBACK_HEAD ++ "boom" ++ FALLBACK_TAIL ≠ "" :=
  c4_generation_fallback 0 sampleFetch sampleRender [] {} "boom" exampleDf
    (Or.inl (by decide)) (by decide) (by decide) rfl

/-- C3: the cached series is not an immutable snapshot — computing metrics
mutates it.  After one analyze request for the default key, the cached
DataFrame has gained the derived columns CDD and Solar_Potential, so a
second request served from the cache (here an export-csv of the same key,
answered with zero fetches) observes nine columns instead of the seven the
fetcher produced.  This evaluates the embedded code at the failing input of
the code_bug report. -/
theorem c3_cached_series_mutated :
    exampleDf.columns = baseColumns
    ∧ (export_csv 0 sampleFetch
        (analyze 0 sampleFetch sampleGen sampleRender [] {}).cache {}).fetchCount = 0
    ∧ exportColumns (export_csv 0 sampleFetch
        (analyze 0 sampleFetch sampleGen sampleRender [] {}).cache {}).result
        = baseColumns ++ ["CDD", "Solar_Potential"] :=
  ⟨rfl, rfl, rfl⟩

end WattForecast
